import Mathlib

/-!
Shallow embedding of the device-session backend (`src/main.py`).

The program keeps one SQLite table `sessions(id, user_sub, device_id,
device_name, created_at, last_seen, revoked)` with `id` assigned by
AUTOINCREMENT (starting at 1, never reused) and four endpoints:

* `POST /api/register`     → `register_session`
* `POST /api/force_logout` → `force_logout`
* `GET  /api/sessions`     → `list_sessions`
* `GET  /api/private`      → `private` (the session-validity gate)

The store is modelled as the list of rows in rowid order together with the
next AUTOINCREMENT id.  Timestamps are naturals (seconds).  The bearer-token
plumbing is outside the modelled core: each operation takes the already
resolved `user_sub` as an argument.
-/

namespace DeviceLogin

/-- One row of the `sessions` table (`init_db`, src/main.py lines 35-45).
`revoked` is stored as INTEGER 0/1 in SQLite; modelled as `Bool`. -/
structure Session where
  id : Nat
  user_sub : String
  device_id : String
  device_name : String
  created_at : Nat
  last_seen : Nat
  revoked : Bool
deriving Repr, DecidableEq

/-- The database: rows in rowid (= insertion) order plus the next
AUTOINCREMENT id. -/
structure Store where
  rows : List Session
  nextId : Nat
deriving Repr, DecidableEq

/-- A freshly created database (`init_db`): no rows, AUTOINCREMENT starts
at 1. -/
def emptyStore : Store := ⟨[], 1⟩

/-- `30*24*3600` seconds: the retention window used by the cleanup DELETE in
`register_session` (line 77). -/
def RETENTION : Nat := 30 * 24 * 3600

/-- `DELETE FROM sessions WHERE revoked=1 AND last_seen < now - 30*24*3600`
(line 77).  Keeps exactly the rows that do not satisfy the WHERE clause. -/
def pruneStore (now : Nat) (st : Store) : Store :=
  { st with rows := st.rows.filter (fun r => !(r.revoked && r.last_seen < now - RETENTION)) }

/-- `SELECT ... FROM sessions WHERE user_sub=? AND device_id=?` followed by
`fetchone` (lines 81-82): the first row in rowid order matching both
columns. -/
def findSession (sub d : String) (st : Store) : Option Session :=
  st.rows.find? (fun r => r.user_sub == sub && r.device_id == d)

/-- SQL equality of a nullable parameter against a TEXT column: comparing
with NULL is never true (`device_id = ?` bound to Python `None` matches no
row). -/
def sqlEqOpt : Option String → String → Bool
  | none, _ => false
  | some s, v => s == v

/-- The lookup performed by the `/api/private` gate (line 160), whose
`device_id` comes from the optional `X-Device-Id` header. -/
def lookupDevice (sub : String) (dev : Option String) (st : Store) : Option Session :=
  st.rows.find? (fun r => r.user_sub == sub && sqlEqOpt dev r.device_id)

/-- Rows of the subject with `revoked=0`, in rowid order
(the WHERE clause of line 91 before its ORDER BY). -/
def activeRows (sub : String) (st : Store) : List Session :=
  st.rows.filter (fun r => r.user_sub == sub && !r.revoked)

/-- Number of non-revoked rows of a subject. -/
def activeCount (sub : String) (st : Store) : Nat :=
  (activeRows sub st).length

/-- The comparison backing `ORDER BY created_at ASC`. -/
def createdLe (a b : Session) : Prop := a.created_at ≤ b.created_at

instance : DecidableRel createdLe := fun a b => Nat.decLe a.created_at b.created_at

instance : IsTotal Session createdLe := ⟨fun a b => Nat.le_total a.created_at b.created_at⟩

instance : IsTrans Session createdLe := ⟨fun _ _ _ h h' => Nat.le_trans h h'⟩

/-- `SELECT id, device_id, device_name, created_at FROM sessions WHERE
user_sub=? AND revoked=0 ORDER BY created_at ASC` (line 91): the subject's
non-revoked rows sorted ascending by `created_at`. -/
def activeSessions (sub : String) (st : Store) : List Session :=
  List.insertionSort createdLe (activeRows sub st)

/-- The four fields exposed per session in the `limit_reached` response
(line 101): id, device_id, device_name, created_at. -/
def sessionSummary (r : Session) : Nat × String × String × Nat :=
  (r.id, r.device_id, r.device_name, r.created_at)

/-- Outcome of `register_session`. -/
inductive RegisterResult where
  | already_registered
  | registered
  | limit_reached (sessions : List (Nat × String × String × Nat))
deriving Repr, DecidableEq

/-- The row transformation of `UPDATE sessions SET last_seen=? WHERE id=?`
(line 85): the row with the given id gets the fresh timestamp, all others
are untouched. -/
def touchMap (now rowId : Nat) (r : Session) : Session :=
  if r.id == rowId then { r with last_seen := now } else r

/-- `register_session` (lines 61-103), after token resolution.  In order:
prune stale revoked rows store-wide; look the (subject, device) pair up —
if found, touch that row's `last_seen` and answer `already_registered`;
otherwise list the subject's active sessions and either insert a fresh row
(`registered`) or answer `limit_reached` with the active list. -/
def register (sub dev name : String) (limit now : Nat) (st : Store) :
    RegisterResult × Store :=
  let st1 := pruneStore now st
  match findSession sub dev st1 with
  | some row =>
      (RegisterResult.already_registered,
       { st1 with rows := st1.rows.map (touchMap now row.id) })
  | none =>
      let active := activeSessions sub st1
      if active.length < limit then
        (RegisterResult.registered,
         { rows := st1.rows ++ [⟨st1.nextId, sub, dev, name, now, now, false⟩],
           nextId := st1.nextId + 1 })
      else
        (RegisterResult.limit_reached (active.map sessionSummary), st1)

/-- The JSON value found under `logout_session_id` in the `force_logout`
request body: absent, a number, or a string. -/
inductive SessionIdArg where
  | absent
  | intVal (n : Int)
  | strVal (s : String)
deriving Repr, DecidableEq

/-- One character read as a decimal digit. -/
def charDigit? (c : Char) : Option Nat :=
  if 48 ≤ c.toNat ∧ c.toNat ≤ 57 then some (c.toNat - 48) else none

/-- The whitespace SQLite skips around a numeric literal: space, TAB, LF,
VT, FF, CR. -/
def isSqlSpace (c : Char) : Bool :=
  c == ' ' || (9 ≤ c.toNat && c.toNat ≤ 13)

/-- The value of a digit run, most significant first. -/
def digitsVal (ds : List Char) : Nat :=
  ds.foldl (fun acc c => acc * 10 + ((charDigit? c).getD 0)) 0

/-- SQLite's numeric-affinity conversion of a TEXT value, as applied before
comparing it with an INTEGER column: optional surrounding whitespace, an
optional sign, digits with an optional decimal point, and an optional
exponent.  A well-formed literal converts to the number `m * 10 ^ e`,
returned as the pair `(m, e)`; anything else stays TEXT (`none`). -/
def sqliteTextToNum? (cs : List Char) : Option (Int × Int) :=
  let cs1 := cs.dropWhile isSqlSpace
  let (sign, cs2) : Int × List Char :=
    match cs1 with
    | '+' :: rest => (1, rest)
    | '-' :: rest => (-1, rest)
    | _ => (1, cs1)
  let intDs := cs2.takeWhile (fun c => (charDigit? c).isSome)
  let cs3 := cs2.dropWhile (fun c => (charDigit? c).isSome)
  let (fracDs, cs4) : List Char × List Char :=
    match cs3 with
    | '.' :: rest => (rest.takeWhile (fun c => (charDigit? c).isSome),
                      rest.dropWhile (fun c => (charDigit? c).isSome))
    | _ => ([], cs3)
  if intDs.length + fracDs.length = 0 then none
  else
    let mantissa : Int := sign * (digitsVal (intDs ++ fracDs) : Int)
    let e10 : Int := -(fracDs.length : Int)
    match cs4 with
    | [] => some (mantissa, e10)
    | c :: rest =>
        if c == 'e' || c == 'E' then
          let (esign, rest2) : Int × List Char :=
            match rest with
            | '+' :: r => (1, r)
            | '-' :: r => (-1, r)
            | _ => (1, rest)
          let expDs := rest2.takeWhile (fun c0 => (charDigit? c0).isSome)
          let rest3 := rest2.dropWhile (fun c0 => (charDigit? c0).isSome)
          if expDs.length = 0 then none
          else if rest3.dropWhile isSqlSpace = [] then
            some (mantissa, e10 + esign * (digitsVal expDs : Int))
          else none
        else if (c :: rest).dropWhile isSqlSpace = [] then
          some (mantissa, e10)
        else none

/-- Exact comparison of the converted number `m * 10 ^ e` with an integer,
as SQLite compares a converted TEXT operand with an INTEGER column value. -/
def numEqInt (m e i : Int) : Bool :=
  if 0 ≤ e then m * 10 ^ e.toNat == i else m == i * 10 ^ (-e).toNat

/-- Python truthiness of the argument, as tested by `if not sid` (line 116):
`None`, `0` and `""` are falsy. -/
def SessionIdArg.truthy : SessionIdArg → Bool
  | .absent => false
  | .intVal n => n != 0
  | .strVal s => s != ""

/-- Whether the bound parameter matches an INTEGER `id` column value in the
UPDATE's WHERE clause: a number matches its value; a string is first run
through SQLite's numeric-affinity conversion and matches if it converts to
that number; a string that stays TEXT, and a NULL, match no row. -/
def SessionIdArg.matchesId : SessionIdArg → Nat → Bool
  | .absent, _ => false
  | .intVal n, i => n == (i : Int)
  | .strVal s, i =>
      match sqliteTextToNum? s.data with
      | none => false
      | some (m, e) => numEqInt m e (i : Int)

/-- Outcome of `force_logout`: HTTP 400, 404, or the 200 body. -/
inductive LogoutResult where
  | badRequest
  | notFound
  | ok
deriving Repr, DecidableEq

/-- The WHERE clause of the revocation UPDATE (line 121):
`id=? AND user_sub=?`. -/
def logoutMatches (sid : SessionIdArg) (sub : String) (r : Session) : Bool :=
  sid.matchesId r.id && r.user_sub == sub

/-- The row transformation of `UPDATE sessions SET revoked=1 WHERE id=? AND
user_sub=?` (line 121): rows selected by the WHERE clause get `revoked=1`,
all others are untouched. -/
def revokeMap (sid : SessionIdArg) (sub : String) (r : Session) : Session :=
  if logoutMatches sid sub r then { r with revoked := true } else r

/-- `force_logout` (lines 105-127), after token resolution.  400 if the
session id is falsy; otherwise `UPDATE sessions SET revoked=1 WHERE id=? AND
user_sub=?`, 404 when the update touched no row, else 200. -/
def forceLogout (sub : String) (sid : SessionIdArg) (st : Store) :
    LogoutResult × Store :=
  if !sid.truthy then (LogoutResult.badRequest, st)
  else if (st.rows.filter (logoutMatches sid sub)).length = 0 then
    (LogoutResult.notFound, st)
  else
    (LogoutResult.ok, { st with rows := st.rows.map (revokeMap sid sub) })

/-- Outcome of the `/api/private` validity gate: the two 401 reasons
(`session not registered`, `logged_out_by_another_device`) or success. -/
inductive CheckResult where
  | notRegistered
  | loggedOutElsewhere
  | okAccess
deriving Repr, DecidableEq

/-- The validity gate `private` (lines 146-173), after token resolution.
Looks up (subject, X-Device-Id); 401 `notRegistered` when no row exists, 401
`loggedOutElsewhere` when the row is revoked, success otherwise.  Only
SELECTs are issued, so the store is returned as received. -/
def check (sub : String) (dev : Option String) (st : Store) :
    CheckResult × Store :=
  match lookupDevice sub dev st with
  | none => (CheckResult.notRegistered, st)
  | some r =>
      if r.revoked then (CheckResult.loggedOutElsewhere, st)
      else (CheckResult.okAccess, st)

/-- `list_sessions` (lines 129-144): all rows of the subject ordered by
`created_at`, read-only. -/
def listSessions (sub : String) (st : Store) : List Session × Store :=
  (List.insertionSort createdLe (st.rows.filter (fun r => r.user_sub == sub)), st)

/-! ### Concrete stores used to exercise the theorems -/

/-- One revoked row for ("u1","d1") whose `last_seen` is far in the past. -/
def staleRevokedStore : Store := ⟨[⟨1, "u1", "d1", "n", 0, 0, true⟩], 2⟩

/-- One live (non-revoked) row for ("u1","d1"). -/
def activeRowStore : Store := ⟨[⟨1, "u1", "d1", "n", 5, 5, false⟩], 2⟩

/-- Subject "u1" holding three live sessions d1, d2, d3. -/
def threeActiveStore : Store :=
  ⟨[⟨1, "u1", "d1", "n1", 10, 10, false⟩, ⟨2, "u1", "d2", "n2", 20, 20, false⟩,
    ⟨3, "u1", "d3", "n3", 30, 30, false⟩], 4⟩

/-- A revoked row 31 days old next to a live row of another subject. -/
def pruneWitnessStore : Store :=
  ⟨[⟨1, "u1", "d1", "n1", 0, 0, true⟩, ⟨2, "u2", "d2", "n2", 5, 5, false⟩], 3⟩

/-! ### Helper lemmas -/

/-- The cleanup DELETE only removes revoked rows, so the non-revoked rows of
any subject are untouched by it. -/
theorem activeRows_pruneStore (sub : String) (now : Nat) (st : Store) :
    activeRows sub (pruneStore now st) = activeRows sub st := by
  unfold activeRows pruneStore
  simp only [List.filter_filter]
  refine List.filter_congr (fun r _ => ?_)
  cases hrev : r.revoked <;> simp [hrev]

theorem activeCount_pruneStore (sub : String) (now : Nat) (st : Store) :
    activeCount sub (pruneStore now st) = activeCount sub st := by
  unfold activeCount
  rw [activeRows_pruneStore]

theorem mem_rows_pruneStore {now : Nat} {st : Store} {r : Session}
    (h : r ∈ (pruneStore now st).rows) : r ∈ st.rows :=
  (List.mem_filter.mp h).1

theorem findSession_pruneStore_none (sub d : String) (now : Nat) (st : Store)
    (h : findSession sub d st = none) :
    findSession sub d (pruneStore now st) = none := by
  rw [findSession, List.find?_eq_none] at h ⊢
  intro x hx
  exact h x (mem_rows_pruneStore hx)

/-- Mapping a function that does not change whether elements satisfy `p`
keeps the number of `p`-elements. -/
theorem length_filter_map_eq {α : Type} (p : α → Bool) (g : α → α)
    (hg : ∀ x, p (g x) = p x) (l : List α) :
    ((l.map g).filter p).length = (l.filter p).length := by
  have hfl : List.filter (p ∘ g) l = List.filter p l := List.filter_congr (fun a _ => hg a)
  rw [List.filter_map, hfl, List.length_map]

/-- Mapping a function that can only turn `p`-elements into non-`p`-elements
cannot increase the number of `p`-elements. -/
theorem length_filter_map_le {α : Type} (p : α → Bool) (g : α → α)
    (hg : ∀ x, p (g x) = true → p x = true) (l : List α) :
    ((l.map g).filter p).length ≤ (l.filter p).length := by
  rw [List.filter_map, List.length_map]
  exact (List.monotone_filter_right l (fun a ha => hg a ha)).length_le

/-- `find?` commutes with a map whose function does not change whether
elements satisfy the predicate. -/
theorem find?_map_pred_invariant {α : Type} (p : α → Bool) (g : α → α)
    (hg : ∀ x, p (g x) = p x) (l : List α) :
    (l.map g).find? p = (l.find? p).map g := by
  have hfn : (p ∘ g) = p := funext hg
  rw [List.find?_map, hfn]

theorem pruneStore_nextId (now : Nat) (st : Store) :
    (pruneStore now st).nextId = st.nextId := rfl

theorem activeSessions_pruneStore (sub : String) (now : Nat) (st : Store) :
    activeSessions sub (pruneStore now st) = activeSessions sub st := by
  unfold activeSessions
  rw [activeRows_pruneStore]

theorem activeSessions_length (sub : String) (st : Store) :
    (activeSessions sub st).length = (activeRows sub st).length :=
  (List.perm_insertionSort createdLe (activeRows sub st)).length_eq

/-- Branch equation for `register`: the (subject, device) pair is found after
the cleanup DELETE, so only that row's `last_seen` is touched. -/
theorem register_found_eq (sub dev name : String) (limit now : Nat) (st : Store)
    (row : Session) (h : findSession sub dev (pruneStore now st) = some row) :
    register sub dev name limit now st
      = (RegisterResult.already_registered,
         { pruneStore now st with rows := (pruneStore now st).rows.map (touchMap now row.id) }) := by
  unfold register
  simp only [h]

/-- Branch equation for `register`: pair absent and a free slot, so a fresh
row is inserted. -/
theorem register_insert_eq (sub dev name : String) (limit now : Nat) (st : Store)
    (h : findSession sub dev (pruneStore now st) = none)
    (hlt : (activeSessions sub (pruneStore now st)).length < limit) :
    register sub dev name limit now st
      = (RegisterResult.registered,
         { rows := (pruneStore now st).rows ++ [⟨st.nextId, sub, dev, name, now, now, false⟩],
           nextId := st.nextId + 1 }) := by
  unfold register
  simp only [h, if_pos hlt, pruneStore_nextId]

/-- Branch equation for `register`: pair absent and no free slot, so the
active list is returned. -/
theorem register_limit_eq (sub dev name : String) (limit now : Nat) (st : Store)
    (h : findSession sub dev (pruneStore now st) = none)
    (hge : limit ≤ (activeSessions sub (pruneStore now st)).length) :
    register sub dev name limit now st
      = (RegisterResult.limit_reached
          ((activeSessions sub (pruneStore now st)).map sessionSummary),
         pruneStore now st) := by
  unfold register
  simp only [h, if_neg (Nat.not_lt.mpr hge)]

/-- Inversion of a successful `forceLogout`: the argument was truthy, the
UPDATE matched at least one row, and the new store is the revoke-map of the
old one. -/
theorem forceLogout_ok_inv (sub : String) (sid : SessionIdArg) (st st' : Store)
    (h : forceLogout sub sid st = (LogoutResult.ok, st')) :
    sid.truthy = true
    ∧ (st.rows.filter (logoutMatches sid sub)).length ≠ 0
    ∧ st' = { st with rows := st.rows.map (revokeMap sid sub) } := by
  unfold forceLogout at h
  cases htv : sid.truthy
  · rw [htv] at h
    simp at h
  · rw [htv] at h
    simp only [Bool.not_true, Bool.false_eq_true, if_false] at h
    by_cases hz : (st.rows.filter (logoutMatches sid sub)).length = 0
    · rw [if_pos hz] at h
      simp at h
    · rw [if_neg hz] at h
      injection h with h1 h2
      exact ⟨rfl, hz, h2.symm⟩

/-- The revoke-map leaves `id`, `user_sub` and `device_id` alone, so the
UPDATE's own WHERE clause still selects the same rows afterwards. -/
theorem logoutMatches_revokeMap (sid : SessionIdArg) (sub : String) (x : Session) :
    logoutMatches sid sub (revokeMap sid sub x) = logoutMatches sid sub x := by
  unfold revokeMap
  by_cases hm : logoutMatches sid sub x = true
  · rw [if_pos hm]
    rfl
  · rw [if_neg hm]

/-- Applying the revoke-map twice is the same as applying it once. -/
theorem revokeMap_apply_twice (sid : SessionIdArg) (sub : String) (x : Session) :
    revokeMap sid sub (revokeMap sid sub x) = revokeMap sid sub x := by
  unfold revokeMap
  by_cases hm : logoutMatches sid sub x = true
  · have hm2 : logoutMatches sid sub ({ x with revoked := true } : Session) = true := hm
    rw [if_pos hm, if_pos hm2]
  · rw [if_neg hm, if_neg hm]

/-- Mapping the revoke-map twice over a row list is the same as mapping it
once. -/
theorem revokeMap_map_idem (sid : SessionIdArg) (sub : String) (l : List Session) :
    (l.map (revokeMap sid sub)).map (revokeMap sid sub) = l.map (revokeMap sid sub) := by
  rw [List.map_map]
  exact List.map_congr_left (fun x _ => revokeMap_apply_twice sid sub x)

/-- The arguments of one `/api/register` request: resolved subject, device
id, device name and request time. -/
structure RegCall where
  sub : String
  dev : String
  name : String
  now : Nat
deriving Repr, DecidableEq

/-- A sequence of `/api/register` requests, each served with the same
`limit` query parameter. -/
def regSeq (limit : Nat) (calls : List RegCall) (st : Store) : Store :=
  calls.foldl (fun s c => (register c.sub c.dev c.name limit c.now s).2) st

/-- Touching `last_seen` of a row changes no subject's active count. -/
theorem activeCount_touch (S : String) (now rowId : Nat) (st1 : Store) :
    activeCount S { st1 with rows := st1.rows.map (touchMap now rowId) }
      = activeCount S st1 := by
  unfold activeCount activeRows
  refine length_filter_map_eq _ _ (fun x => ?_) st1.rows
  unfold touchMap
  cases hid : (x.id == rowId) <;> simp [hid]

/-- Appending one row adds its own contribution to an active count. -/
theorem activeCount_insert (S : String) (st1 : Store) (x : Session) (m : Nat) :
    activeCount S ⟨st1.rows ++ [x], m⟩
      = activeCount S st1 + (if (x.user_sub == S && !x.revoked) = true then 1 else 0) := by
  unfold activeCount activeRows
  rw [List.filter_append, List.length_append]
  congr 1
  cases hp : (x.user_sub == S && !x.revoked) <;> simp [hp]

/-- One `register` call with limit `N` keeps every subject's active count
at or below `N` whenever it started there. -/
theorem activeCount_register_le (S sub dev name : String) (N now : Nat) (st : Store)
    (h : activeCount S st ≤ N) :
    activeCount S (register sub dev name N now st).2 ≤ N := by
  cases hf : findSession sub dev (pruneStore now st) with
  | some row =>
    rw [register_found_eq sub dev name N now st row hf]
    rw [activeCount_touch, activeCount_pruneStore]
    exact h
  | none =>
    by_cases hc : (activeSessions sub (pruneStore now st)).length < N
    · rw [register_insert_eq sub dev name N now st hf hc]
      have hC : activeCount S (register sub dev name N now st).2
          = activeCount S (pruneStore now st)
            + (if (sub == S && !false) = true then 1 else 0) := by
        rw [register_insert_eq sub dev name N now st hf hc]
        exact activeCount_insert S (pruneStore now st) ⟨st.nextId, sub, dev, name, now, now, false⟩ _
      rw [register_insert_eq sub dev name N now st hf hc] at hC
      rw [hC, activeCount_pruneStore]
      cases hss : (sub == S) with
      | false => simpa [hss] using h
      | true =>
        have hsubS : sub = S := eq_of_beq hss
        have hlt : activeCount sub st < N := by
          have h1 := activeSessions_length sub (pruneStore now st)
          have h2 := activeRows_pruneStore sub now st
          unfold activeCount
          rw [← h2, ← h1]
          exact hc
        rw [← hsubS]
        simpa using hlt
    · rw [register_limit_eq sub dev name N now st hf (Nat.not_lt.mp hc)]
      rw [activeCount_pruneStore]
      exact h

/-- A sequence of `register` calls with limit `N` preserves
`activeCount ≤ N`. -/
theorem activeCount_regSeq_le (S : String) (N : Nat) :
    ∀ (calls : List RegCall) (st : Store), activeCount S st ≤ N →
      activeCount S (regSeq N calls st) ≤ N := by
  intro calls
  induction calls with
  | nil => exact fun st h => h
  | cons c cs ih =>
    intro st h
    exact ih _ (activeCount_register_le S c.sub c.dev c.name N c.now st h)

/-! ### Claim theorems -/

/-- `force_logout` never increases any subject's active count. -/
theorem activeCount_forceLogout_le (S sub : String) (sid : SessionIdArg) (st : Store) :
    activeCount S (forceLogout sub sid st).2 ≤ activeCount S st := by
  unfold forceLogout
  cases htv : sid.truthy
  · simp
  · simp only [Bool.not_true, Bool.false_eq_true, if_false]
    by_cases hz : (st.rows.filter (logoutMatches sid sub)).length = 0
    · rw [if_pos hz]
    · rw [if_neg hz]
      unfold activeCount activeRows
      refine length_filter_map_le _ _ (fun x hx => ?_) st.rows
      unfold revokeMap at hx
      by_cases hm : logoutMatches sid sub x = true
      · rw [if_pos hm] at hx
        simp at hx
      · rw [if_neg hm] at hx
        exact hx

/-- C1: starting from the empty store, after any sequence of `register`
calls each served with limit `N` — by any subjects and devices, distinct or
not — a subject's count of non-revoked rows never exceeds `N` (every prefix
of a sequence is itself a sequence, so the bound holds at every observable
point); more generally any store satisfying the bound still satisfies it
after more `register` calls, and `register` is the only operation that can
increase the count: `force_logout` never increases it and the two read
endpoints return the store unchanged. -/
theorem session_limit_invariant (S : String) (N : Nat) :
    (∀ calls : List RegCall, activeCount S (regSeq N calls emptyStore) ≤ N)
    ∧ (∀ (st : Store) (calls : List RegCall), activeCount S st ≤ N →
        activeCount S (regSeq N calls st) ≤ N)
    ∧ (∀ (st : Store) (sub : String) (sid : SessionIdArg),
        activeCount S (forceLogout sub sid st).2 ≤ activeCount S st)
    ∧ (∀ (st : Store) (sub : String) (dev : Option String), (check sub dev st).2 = st)
    ∧ (∀ (st : Store) (sub : String), (listSessions sub st).2 = st) := by
  refine ⟨?_, ?_, ?_, ?_, ?_⟩
  · intro calls
    exact activeCount_regSeq_le S N calls emptyStore (Nat.zero_le N)
  · intro st calls h
    exact activeCount_regSeq_le S N calls st h
  · intro st sub sid
    exact activeCount_forceLogout_le S sub sid st
  · intro st sub dev
    unfold check
    cases hl : lookupDevice sub dev st with
    | none => rfl
    | some r => by_cases hr : r.revoked <;> simp [hr]
  · intro st sub
    rfl

/-- C1 witness: with limit 1, two registrations by the same subject leave at
most one active row; a store already at its limit of 3 stays there. -/
theorem session_limit_invariant_witness :
    activeCount "u1" (regSeq 1 [⟨"u1", "d1", "n1", 5⟩, ⟨"u1", "d2", "n2", 6⟩] emptyStore) ≤ 1
    ∧ (activeCount "u1" threeActiveStore ≤ 3
        ∧ activeCount "u1" (regSeq 3 [⟨"u1", "d9", "n9", 50⟩] threeActiveStore) ≤ 3) :=
  ⟨(session_limit_invariant "u1" 1).1 [⟨"u1", "d1", "n1", 5⟩, ⟨"u1", "d2", "n2", 6⟩],
   by decide,
   (session_limit_invariant "u1" 3).2.1 threeActiveStore [⟨"u1", "d9", "n9", 50⟩] (by decide)⟩

/-- C2: on a `register` call for a pair (subject, device_id) with no stored
row, if the subject has strictly fewer non-revoked rows than `limit` a fresh
row with `revoked = false` and `created_at = last_seen = now` is inserted
and the outcome is `registered`; otherwise nothing is inserted (the store
only undergoes the cleanup DELETE) and the outcome is `limit_reached`
carrying (id, device_id, device_name, created_at) of the subject's
non-revoked sessions, a permutation of those rows sorted ascending by
`created_at`. -/
theorem register_fresh_device (sub dev name : String) (limit now : Nat) (st : Store)
    (hfind : findSession sub dev st = none) :
    ((activeRows sub st).length < limit →
      register sub dev name limit now st
        = (RegisterResult.registered,
           { rows := (pruneStore now st).rows ++ [⟨st.nextId, sub, dev, name, now, now, false⟩],
             nextId := st.nextId + 1 }))
    ∧ (limit ≤ (activeRows sub st).length →
      register sub dev name limit now st
        = (RegisterResult.limit_reached ((activeSessions sub st).map sessionSummary),
           pruneStore now st))
    ∧ List.Sorted createdLe (activeSessions sub st)
    ∧ (activeSessions sub st).Perm (activeRows sub st) := by
  have h1 := findSession_pruneStore_none sub dev now st hfind
  have hlen : (activeSessions sub (pruneStore now st)).length = (activeRows sub st).length := by
    rw [activeSessions_pruneStore, activeSessions_length]
  refine ⟨?_, ?_, List.sorted_insertionSort createdLe (activeRows sub st),
    List.perm_insertionSort createdLe (activeRows sub st)⟩
  · intro hlt
    exact register_insert_eq sub dev name limit now st h1 (by omega)
  · intro hge
    rw [register_limit_eq sub dev name limit now st h1 (by omega), activeSessions_pruneStore]

/-- C2 witness: both admission branches at concrete inputs, with the
no-existing-row hypothesis discharged. -/
theorem register_fresh_device_witness :
    (findSession "u1" "d1" emptyStore = none
      ∧ register "u1" "d1" "n1" 3 10 emptyStore
          = (RegisterResult.registered,
             { rows := [⟨1, "u1", "d1", "n1", 10, 10, false⟩], nextId := 2 }))
    ∧ (findSession "u1" "d4" threeActiveStore = none
      ∧ register "u1" "d4" "n4" 3 40 threeActiveStore
          = (RegisterResult.limit_reached
              [(1, "d1", "n1", 10), (2, "d2", "n2", 20), (3, "d3", "n3", 30)],
             threeActiveStore)) := by
  constructor
  · refine ⟨rfl, ?_⟩
    have h := (register_fresh_device "u1" "d1" "n1" 3 10 emptyStore rfl).1 (by decide)
    rw [h]
    decide
  · refine ⟨by decide, ?_⟩
    have h := (register_fresh_device "u1" "d4" "n4" 3 40 threeActiveStore (by decide)).2.1 (by decide)
    rw [h]
    decide

/-- C3 counterexample: the claim fails when the existing row for the pair is
revoked and stale.  With one revoked row for ("u1","d1") whose `last_seen`
is more than 30 days before `now`, the cleanup DELETE at the start of
`register` removes it, so registration proceeds as a fresh admission and
returns `registered`, not `already_registered` — and the subject's active
count increases. -/
theorem register_existing_counterexample :
    findSession "u1" "d1" staleRevokedStore = some ⟨1, "u1", "d1", "n", 0, 0, true⟩
    ∧ (register "u1" "d1" "n" 3 2592001 staleRevokedStore).1 = RegisterResult.registered
    ∧ RegisterResult.registered ≠ RegisterResult.already_registered
    ∧ activeCount "u1" (register "u1" "d1" "n" 3 2592001 staleRevokedStore).2
        = activeCount "u1" staleRevokedStore + 1 := by decide

/-- C3 (amended): on a `register` call for a pair (subject, device_id) whose
row survives the opportunistic cleanup — in particular whenever it is not
revoked, or revoked but seen within the 30-day window — the operation only
touches that row's `last_seen`, inserts nothing, leaves every `revoked` flag
unchanged, returns `already_registered`, and leaves every subject's active
session count unchanged. -/
theorem register_existing_device (sub dev name : String) (limit now : Nat) (st : Store)
    (row : Session) (hfind : findSession sub dev (pruneStore now st) = some row) :
    register sub dev name limit now st
      = (RegisterResult.already_registered,
         { pruneStore now st with rows := (pruneStore now st).rows.map (touchMap now row.id) })
    ∧ (∀ S : String, activeCount S (register sub dev name limit now st).2 = activeCount S st) := by
  have heq := register_found_eq sub dev name limit now st row hfind
  refine ⟨heq, fun S => ?_⟩
  rw [heq]
  unfold activeCount activeRows
  show ((((pruneStore now st).rows.map _).filter _).length) = _
  rw [length_filter_map_eq]
  · exact congrArg List.length (activeRows_pruneStore S now st)
  · intro x
    unfold touchMap
    cases hid : (x.id == row.id) <;> simp [hid]

/-- C3 witness: re-registering a live device only touches it and returns
`already_registered`, with the active count unchanged. -/
theorem register_existing_device_witness :
    findSession "u1" "d1" (pruneStore 7 activeRowStore) = some ⟨1, "u1", "d1", "n", 5, 5, false⟩
    ∧ (register "u1" "d1" "nn" 3 7 activeRowStore).1 = RegisterResult.already_registered
    ∧ activeCount "u1" (register "u1" "d1" "nn" 3 7 activeRowStore).2
        = activeCount "u1" activeRowStore := by
  have h := register_existing_device "u1" "d1" "nn" 3 7 activeRowStore
    ⟨1, "u1", "d1", "n", 5, 5, false⟩ (by decide)
  exact ⟨by decide, by rw [h.1], h.2 "u1"⟩

/-- C6: the cleanup DELETE run by every `register` call keeps exactly the
rows that are not both revoked and seen more than 30 days (2592000 seconds)
before the current time — it deletes nothing else, across all subjects —
and consequently any revoked row of any subject whose `last_seen` is more
than 30 days in the past is absent from the store after the `register` call
completes, whatever its branch. -/
theorem register_prunes_stale (sub dev name : String) (limit now : Nat) (st : Store) :
    (∀ r : Session, r ∈ (pruneStore now st).rows
       ↔ (r ∈ st.rows ∧ ¬(r.revoked = true ∧ RETENTION < now - r.last_seen)))
    ∧ (∀ r : Session, r ∈ st.rows → r.revoked = true → RETENTION < now - r.last_seen →
        r ∉ ((register sub dev name limit now st).2).rows) := by
  have hmem : ∀ r : Session, r ∈ (pruneStore now st).rows
      ↔ (r ∈ st.rows ∧ ¬(r.revoked = true ∧ RETENTION < now - r.last_seen)) := by
    intro r
    unfold pruneStore
    simp only [List.mem_filter]
    constructor
    · rintro ⟨hr, hp⟩
      refine ⟨hr, ?_⟩
      rintro ⟨hrev, hlt⟩
      rw [hrev] at hp
      have h1 : r.last_seen < now - RETENTION := by omega
      simp [h1] at hp
    · rintro ⟨hr, hnp⟩
      refine ⟨hr, ?_⟩
      cases hrev : r.revoked with
      | false => simp
      | true =>
        simp only [Bool.true_and, Bool.not_eq_true']
        rw [decide_eq_false_iff_not]
        intro hlt
        exact hnp ⟨hrev, by omega⟩
  refine ⟨hmem, ?_⟩
  intro r hr hrev hstale hmem2
  have hnotin : r ∉ (pruneStore now st).rows :=
    fun hin => ((hmem r).mp hin).2 ⟨hrev, hstale⟩
  cases hf : findSession sub dev (pruneStore now st) with
  | some row =>
    rw [register_found_eq sub dev name limit now st row hf] at hmem2
    obtain ⟨x, hx, hgx⟩ := List.mem_map.mp hmem2
    unfold touchMap at hgx
    cases hid : (x.id == row.id) with
    | false =>
      rw [hid] at hgx
      simp at hgx
      exact hnotin (hgx ▸ hx)
    | true =>
      rw [hid] at hgx
      simp at hgx
      rw [← hgx] at hstale
      simp at hstale
  | none =>
    by_cases hc : (activeSessions sub (pruneStore now st)).length < limit
    · rw [register_insert_eq sub dev name limit now st hf hc] at hmem2
      simp only [List.mem_append, List.mem_singleton] at hmem2
      cases hmem2 with
      | inl hin => exact hnotin hin
      | inr hnew => rw [hnew] at hrev; simp at hrev
    · rw [register_limit_eq sub dev name limit now st hf (Nat.not_lt.mp hc)] at hmem2
      exact hnotin hmem2

/-- C6 witness: a revoked row 31 days old disappears when another subject
registers a new device. -/
theorem register_prunes_stale_witness :
    ((⟨1, "u1", "d1", "n1", 0, 0, true⟩ : Session) ∈ pruneWitnessStore.rows
      ∧ (⟨1, "u1", "d1", "n1", 0, 0, true⟩ : Session).revoked = true
      ∧ RETENTION < 2678400 - (⟨1, "u1", "d1", "n1", 0, 0, true⟩ : Session).last_seen)
    ∧ (⟨1, "u1", "d1", "n1", 0, 0, true⟩ : Session)
        ∉ ((register "u3" "d9" "n9" 3 2678400 pruneWitnessStore).2).rows :=
  ⟨⟨by decide, by decide, by decide⟩,
   (register_prunes_stale "u3" "d9" "n9" 3 2678400 pruneWitnessStore).2
     ⟨1, "u1", "d1", "n1", 0, 0, true⟩ (by decide) (by decide) (by decide)⟩

/-- C4: the validity gate answers 401 `notRegistered` exactly when no row
exists for (subject, device_id); when a row exists it answers 401
`loggedOutElsewhere` exactly when that row is revoked and succeeds exactly
when it is not; and immediately after a successful `force_logout` of the
session found for (subject, device_id), the gate answers
`loggedOutElsewhere`. -/
theorem check_validity_gate (sub : String) (dev : Option String) (st : Store) :
    ((check sub dev st).1 = CheckResult.notRegistered ↔ lookupDevice sub dev st = none)
    ∧ (∀ r : Session, lookupDevice sub dev st = some r →
        (((check sub dev st).1 = CheckResult.loggedOutElsewhere ↔ r.revoked = true)
         ∧ ((check sub dev st).1 = CheckResult.okAccess ↔ r.revoked = false)))
    ∧ (∀ (r : Session) (st' : Store), lookupDevice sub dev st = some r →
        forceLogout sub (SessionIdArg.intVal (r.id : Int)) st = (LogoutResult.ok, st') →
        (check sub dev st').1 = CheckResult.loggedOutElsewhere) := by
  refine ⟨?_, ?_, ?_⟩
  · cases hl : lookupDevice sub dev st with
    | none => rw [check, hl]; simp
    | some r =>
      rw [check, hl]
      by_cases hr : r.revoked = true <;> simp [hr]
  · intro r hl
    rw [check, hl]
    by_cases hr : r.revoked = true
    · simp [hr]
    · have hr' : r.revoked = false := Bool.not_eq_true r.revoked ▸ hr
      simp [hr']
  · intro r st' hl hlogout
    obtain ⟨htr, hnz, hst'⟩ := forceLogout_ok_inv sub (SessionIdArg.intVal (r.id : Int)) st st' hlogout
    have hfind : st.rows.find? (fun r0 => r0.user_sub == sub && sqlEqOpt dev r0.device_id) = some r := hl
    have hps := List.find?_some hfind
    have hsub : r.user_sub = sub := by
      simp at hps
      exact hps.1
    have hrm : logoutMatches (SessionIdArg.intVal (r.id : Int)) sub r = true := by
      simp [logoutMatches, SessionIdArg.matchesId, hsub]
    have hp : ∀ x : Session,
        ((fun r0 : Session => r0.user_sub == sub && sqlEqOpt dev r0.device_id)
            (revokeMap (SessionIdArg.intVal (r.id : Int)) sub x))
          = (x.user_sub == sub && sqlEqOpt dev x.device_id) := by
      intro x
      unfold revokeMap
      by_cases hm : logoutMatches (SessionIdArg.intVal (r.id : Int)) sub x = true
      · rw [if_pos hm]
      · rw [if_neg hm]
    have hl' : lookupDevice sub dev st'
        = some (revokeMap (SessionIdArg.intVal (r.id : Int)) sub r) := by
      rw [hst']
      show (st.rows.map (revokeMap (SessionIdArg.intVal (r.id : Int)) sub)).find? _ = _
      rw [find?_map_pred_invariant _ _ hp]
      have hfind : st.rows.find? (fun r0 => r0.user_sub == sub && sqlEqOpt dev r0.device_id) = some r := hl
      rw [hfind]
      rfl
    have hrv : revokeMap (SessionIdArg.intVal (r.id : Int)) sub r = { r with revoked := true } := by
      unfold revokeMap
      rw [if_pos hrm]
    rw [check, hl', hrv]
    simp

/-- C4 witness: at concrete inputs, an unknown device is `notRegistered`, a
live device passes, and after force-logging-out the device's session the
gate reports `loggedOutElsewhere`. -/
theorem check_validity_gate_witness :
    (check "u1" (some "dX") activeRowStore).1 = CheckResult.notRegistered
    ∧ (check "u1" (some "d1") activeRowStore).1 = CheckResult.okAccess
    ∧ (check "u1" (some "d1") (⟨[⟨1, "u1", "d1", "n", 5, 5, true⟩], 2⟩ : Store)).1
        = CheckResult.loggedOutElsewhere := by
  have h := check_validity_gate "u1" (some "dX") activeRowStore
  have h2 := check_validity_gate "u1" (some "d1") activeRowStore
  refine ⟨h.1.mpr (by decide), ?_, ?_⟩
  · exact ((h2.2.1 ⟨1, "u1", "d1", "n", 5, 5, false⟩ (by decide)).2).mpr rfl
  · exact h2.2.2 ⟨1, "u1", "d1", "n", 5, 5, false⟩ ⟨[⟨1, "u1", "d1", "n", 5, 5, true⟩], 2⟩
      (by decide) (by decide)

/-- C5: for any subject and any numeric session id (a session identifier is
a nonzero integer; ids are assigned from 1), `force_logout` answers 404
exactly when no row with that id owned by the subject exists — covering
both a nonexistent id and an id owned by another subject, which produce the
same outcome; on 404 the store is unchanged, and on success exactly the
owned rows with that id get `revoked = true` while everything else is
untouched. -/
theorem forceLogout_not_found_iff (sub : String) (n : Int) (st : Store) (hn : n ≠ 0) :
    ((forceLogout sub (SessionIdArg.intVal n) st).1 = LogoutResult.notFound
       ↔ ∀ r ∈ st.rows, ¬((r.id : Int) = n ∧ r.user_sub = sub))
    ∧ ((forceLogout sub (SessionIdArg.intVal n) st).1 = LogoutResult.notFound →
        (forceLogout sub (SessionIdArg.intVal n) st).2 = st)
    ∧ ((forceLogout sub (SessionIdArg.intVal n) st).1 = LogoutResult.ok →
        (forceLogout sub (SessionIdArg.intVal n) st).2.rows
          = st.rows.map (fun r =>
              if (r.id : Int) = n ∧ r.user_sub = sub then { r with revoked := true } else r))
    ∧ ((forceLogout sub (SessionIdArg.intVal n) st).1 = LogoutResult.notFound
       ∨ (forceLogout sub (SessionIdArg.intVal n) st).1 = LogoutResult.ok) := by
  have ht : (SessionIdArg.intVal n).truthy = true := by
    simp [SessionIdArg.truthy, hn]
  have hmatch : ∀ r : Session,
      logoutMatches (SessionIdArg.intVal n) sub r = true ↔ ((r.id : Int) = n ∧ r.user_sub = sub) := by
    intro r
    unfold logoutMatches SessionIdArg.matchesId
    simp only [Bool.and_eq_true, beq_iff_eq]
    constructor
    · rintro ⟨h1, h2⟩; exact ⟨h1.symm, h2⟩
    · rintro ⟨h1, h2⟩; exact ⟨h1.symm, h2⟩
  unfold forceLogout
  rw [ht]
  simp only [Bool.not_true, Bool.false_eq_true, if_false]
  by_cases hz : (st.rows.filter (logoutMatches (SessionIdArg.intVal n) sub)).length = 0
  · rw [if_pos hz]
    have hall : ∀ r ∈ st.rows, ¬((r.id : Int) = n ∧ r.user_sub = sub) := by
      intro r hr hc
      have hnil := List.filter_eq_nil_iff.mp (List.length_eq_zero.mp hz)
      exact hnil r hr ((hmatch r).mpr hc)
    refine ⟨⟨fun _ => hall, fun _ => rfl⟩, fun _ => rfl, fun habs => by simp at habs, Or.inl rfl⟩
  · rw [if_neg hz]
    refine ⟨⟨fun habs => by simp at habs, fun hall => ?_⟩, fun habs => by simp at habs,
      fun _ => ?_, Or.inr rfl⟩
    · exfalso
      have hpos : 0 < (st.rows.filter (logoutMatches (SessionIdArg.intVal n) sub)).length :=
        Nat.pos_of_ne_zero hz
      obtain ⟨r, hrmem⟩ := List.exists_mem_of_length_pos hpos
      obtain ⟨hr, hp⟩ := List.mem_filter.mp hrmem
      exact hall r hr ((hmatch r).mp hp)
    · refine List.map_congr_left (fun r _ => ?_)
      unfold revokeMap
      by_cases hp : ((r.id : Int) = n ∧ r.user_sub = sub)
      · rw [if_pos ((hmatch r).mpr hp), if_pos hp]
      · rw [if_neg ?_, if_neg hp]
        intro hb
        exact hp ((hmatch r).mp hb)

/-- C5 witness: revoking u1's session 1 succeeds and flips exactly that row,
while a nonexistent id 9999 and an id owned by another subject both yield
404 and leave the store unchanged. -/
theorem forceLogout_not_found_iff_witness :
    ((forceLogout "u1" (SessionIdArg.intVal 1) activeRowStore).1 = LogoutResult.ok
      ∧ (forceLogout "u1" (SessionIdArg.intVal 1) activeRowStore).2.rows
          = [⟨1, "u1", "d1", "n", 5, 5, true⟩])
    ∧ (forceLogout "u1" (SessionIdArg.intVal 9999) activeRowStore).1 = LogoutResult.notFound
    ∧ ((forceLogout "u2" (SessionIdArg.intVal 1) activeRowStore).1 = LogoutResult.notFound
      ∧ (forceLogout "u2" (SessionIdArg.intVal 1) activeRowStore).2 = activeRowStore) := by
  have h1 := forceLogout_not_found_iff "u1" 1 activeRowStore (by decide)
  have h2 := forceLogout_not_found_iff "u2" 1 activeRowStore (by decide)
  refine ⟨⟨?_, ?_⟩, by decide, ?_⟩
  · rcases h1.2.2.2 with hnf | hok
    · exact absurd (h1.1.mp hnf ⟨1, "u1", "d1", "n", 5, 5, false⟩ (by decide) (by decide)) (by simp)
    · exact hok
  · rw [h1.2.2.1 (by decide)]
    decide
  · have hnf : (forceLogout "u2" (SessionIdArg.intVal 1) activeRowStore).1 = LogoutResult.notFound :=
      h2.1.mpr (by decide)
    exact ⟨hnf, h2.2.1 hnf⟩

/-- C7 counterexample: an unparseable session id does not produce 400.  The
handler only tests Python truthiness (`if not sid`), so the non-empty,
non-numeric string "x" passes the test, the UPDATE matches no INTEGER id,
and the outcome is 404 `notFound` — not `badRequest` as the claim
requires. -/
theorem forceLogout_bad_request_counterexample :
    sqliteTextToNum? "x".data = none
    ∧ forceLogout "u1" (SessionIdArg.strVal "x") emptyStore = (LogoutResult.notFound, emptyStore)
    ∧ LogoutResult.notFound ≠ LogoutResult.badRequest := by decide

/-- C7 (amended): `force_logout` fails with 400 `badRequest` exactly when
the session id argument is falsy — absent, the integer 0, or the empty
string — and in that case the store is returned untouched, before any row
is read or modified; a non-empty string id that SQLite's numeric-affinity
conversion cannot read as a number (so it stays TEXT and the `id = ?`
comparison matches no row) instead yields 404 `notFound`, also leaving the
store unchanged. -/
theorem forceLogout_bad_request (sub : String) (sid : SessionIdArg) (st : Store) :
    ((forceLogout sub sid st).1 = LogoutResult.badRequest ↔ sid.truthy = false)
    ∧ (sid.truthy = false → forceLogout sub sid st = (LogoutResult.badRequest, st))
    ∧ (∀ s : String, s ≠ "" → sqliteTextToNum? s.data = none →
        forceLogout sub (SessionIdArg.strVal s) st = (LogoutResult.notFound, st)) := by
  refine ⟨?_, ?_, ?_⟩
  · constructor
    · intro h
      by_contra hts
      have ht : sid.truthy = true := by
        cases htv : sid.truthy
        · exact absurd htv hts
        · rfl
      unfold forceLogout at h
      rw [ht] at h
      simp only [Bool.not_true, Bool.false_eq_true, if_false] at h
      by_cases hz : (st.rows.filter (logoutMatches sid sub)).length = 0
      · rw [if_pos hz] at h
        simp at h
      · rw [if_neg hz] at h
        simp at h
    · intro h
      unfold forceLogout
      rw [h]
      rfl
  · intro h
    unfold forceLogout
    rw [h]
    rfl
  · intro s hne hparse
    have ht : (SessionIdArg.strVal s).truthy = true := by
      simp [SessionIdArg.truthy, hne]
    have hz : (st.rows.filter (logoutMatches (SessionIdArg.strVal s) sub)).length = 0 := by
      rw [List.length_eq_zero, List.filter_eq_nil_iff]
      intro r _
      simp [logoutMatches, SessionIdArg.matchesId, hparse]
    unfold forceLogout
    rw [ht]
    simp only [Bool.not_true, Bool.false_eq_true, if_false]
    rw [if_pos hz]

/-- C7 witness: the three falsy shapes of the argument all yield 400 with
the store untouched, and an unparseable non-empty string yields 404. -/
theorem forceLogout_bad_request_witness :
    ((SessionIdArg.absent.truthy = false
       ∧ forceLogout "u1" SessionIdArg.absent activeRowStore = (LogoutResult.badRequest, activeRowStore))
     ∧ forceLogout "u1" (SessionIdArg.intVal 0) activeRowStore = (LogoutResult.badRequest, activeRowStore)
     ∧ forceLogout "u1" (SessionIdArg.strVal "") activeRowStore = (LogoutResult.badRequest, activeRowStore))
    ∧ forceLogout "u1" (SessionIdArg.strVal "abc") activeRowStore = (LogoutResult.notFound, activeRowStore) := by
  refine ⟨⟨⟨rfl, ?_⟩, ?_, ?_⟩, ?_⟩
  · exact (forceLogout_bad_request "u1" SessionIdArg.absent activeRowStore).2.1 rfl
  · exact (forceLogout_bad_request "u1" (SessionIdArg.intVal 0) activeRowStore).2.1 (by decide)
  · exact (forceLogout_bad_request "u1" (SessionIdArg.strVal "") activeRowStore).2.1 (by decide)
  · exact (forceLogout_bad_request "u1" (SessionIdArg.strVal "abc") activeRowStore).2.2 "abc"
      (by decide) (by decide)

/-- The numeric-affinity model on concrete strings: signed, whitespace-padded
and real-literal forms of 5 all match id 5 in the `id = ?` comparison, while
non-numeric and non-integral strings match no id. -/
theorem sqliteAffinity_examples :
    (SessionIdArg.strVal "+5").matchesId 5 = true
    ∧ (SessionIdArg.strVal " 5").matchesId 5 = true
    ∧ (SessionIdArg.strVal "5 ").matchesId 5 = true
    ∧ (SessionIdArg.strVal "5.0").matchesId 5 = true
    ∧ (SessionIdArg.strVal "5e0").matchesId 5 = true
    ∧ (SessionIdArg.strVal "5e1").matchesId 50 = true
    ∧ (SessionIdArg.strVal "5.5").matchesId 5 = false
    ∧ (SessionIdArg.strVal "x").matchesId 5 = false
    ∧ (SessionIdArg.strVal "0x5").matchesId 5 = false
    ∧ sqliteTextToNum? "abc".data = none
    ∧ sqliteTextToNum? "".data = none := by decide

/-- C9: `force_logout` is idempotent on its success path.  Repeating a
successful call returns 200 again and leaves the store exactly as it was,
because the UPDATE's WHERE clause does not test `revoked`; and when every
row owned by the subject carrying the requested id is already revoked (with
at least one such row present and a truthy id), the call still answers 200
and the store is bitwise unchanged. -/
theorem forceLogout_idempotent (sub : String) (sid : SessionIdArg) (st st' : Store) :
    (forceLogout sub sid st = (LogoutResult.ok, st') →
      forceLogout sub sid st' = (LogoutResult.ok, st'))
    ∧ (∀ r ∈ st.rows, logoutMatches sid sub r = true → r.revoked = true →
        (∀ x ∈ st.rows, logoutMatches sid sub x = true → x.revoked = true) →
        sid.truthy = true →
        forceLogout sub sid st = (LogoutResult.ok, st)) := by
  constructor
  · intro h
    obtain ⟨htr, hnz, hst'⟩ := forceLogout_ok_inv sub sid st st' h
    have hlen : (st'.rows.filter (logoutMatches sid sub)).length
        = (st.rows.filter (logoutMatches sid sub)).length := by
      rw [hst']
      exact length_filter_map_eq (logoutMatches sid sub) (revokeMap sid sub)
        (logoutMatches_revokeMap sid sub) st.rows
    have hmap : st'.rows.map (revokeMap sid sub) = st'.rows := by
      rw [hst']
      exact revokeMap_map_idem sid sub st.rows
    unfold forceLogout
    rw [htr]
    simp only [Bool.not_true, Bool.false_eq_true, if_false]
    rw [if_neg (by rw [hlen]; exact hnz), hmap]
  · intro r hr hmr hrev hall htr
    have hnz : (st.rows.filter (logoutMatches sid sub)).length ≠ 0 := by
      intro h0
      exact List.filter_eq_nil_iff.mp (List.length_eq_zero.mp h0) r hr hmr
    have hmap : st.rows.map (revokeMap sid sub) = st.rows := by
      have := List.map_congr_left (l := st.rows)
        (f := revokeMap sid sub) (g := id) (fun x hx => ?_)
      · rw [this, List.map_id]
      · by_cases hm : logoutMatches sid sub x = true
        · have hxrev := hall x hx hm
          unfold revokeMap
          rw [if_pos hm]
          show ({ x with revoked := true } : Session) = x
          cases x with
          | mk i u d dn c l rv =>
            simp at hxrev
            simp [hxrev]
        · unfold revokeMap
          rw [if_neg hm]
          rfl
    unfold forceLogout
    rw [htr]
    simp only [Bool.not_true, Bool.false_eq_true, if_false]
    rw [if_neg hnz, hmap]

/-- C9 witness: revoking u1's only (already revoked) session still answers
200 and changes nothing, and repeating the successful revocation of a live
session answers 200 with the same store. -/
theorem forceLogout_idempotent_witness :
    forceLogout "u1" (SessionIdArg.intVal 1) (⟨[⟨1, "u1", "d1", "n", 5, 5, true⟩], 2⟩ : Store)
        = (LogoutResult.ok, (⟨[⟨1, "u1", "d1", "n", 5, 5, true⟩], 2⟩ : Store))
    ∧ forceLogout "u1" (SessionIdArg.intVal 1) (⟨[⟨1, "u1", "d1", "n", 5, 5, true⟩], 2⟩ : Store)
        = (LogoutResult.ok, (⟨[⟨1, "u1", "d1", "n", 5, 5, true⟩], 2⟩ : Store)) := by
  constructor
  · exact (forceLogout_idempotent "u1" (SessionIdArg.intVal 1)
      (⟨[⟨1, "u1", "d1", "n", 5, 5, true⟩], 2⟩ : Store) emptyStore).2
      ⟨1, "u1", "d1", "n", 5, 5, true⟩ (by decide) (by decide) (by decide) (by decide) (by decide)
  · exact (forceLogout_idempotent "u1" (SessionIdArg.intVal 1) activeRowStore
      (⟨[⟨1, "u1", "d1", "n", 5, 5, true⟩], 2⟩ : Store)).1 (by decide)

/-- C8: the validity gate `check` is a pure read: for every store state and
every input — on both 401 outcomes and on success — it returns the store
exactly as received, so every field of every session row (in particular
`last_seen`) is unchanged. -/
theorem check_pure_read (sub : String) (dev : Option String) (st : Store) :
    (check sub dev st).2 = st := by
  unfold check
  cases h : lookupDevice sub dev st with
  | none => rfl
  | some r => by_cases hr : r.revoked <;> simp [hr]

/-- C10: invoking the validity gate with an absent `X-Device-Id` header
(`device_id` = NULL) always fails with 401 `notRegistered`, for every
subject and every store, because the SQL comparison `device_id = NULL`
matches no stored row; the store is unchanged and neither the revoked
branch nor success is reachable. -/
theorem check_missing_device_header (sub : String) (st : Store) :
    check sub none st = (CheckResult.notRegistered, st)
    ∧ lookupDevice sub none st = none := by
  have hl : lookupDevice sub none st = none := by
    rw [lookupDevice, List.find?_eq_none]
    intro x _
    simp [sqlEqOpt]
  exact ⟨by rw [check, hl], hl⟩

end DeviceLogin
